import Mathlib

/-!
Verification development for the TRADING_ANALYSIS repository.

Shallow embedding of the decision pipeline in src/ai_trading_system.py
(TradingSystemOrchestrator.analyze_stock and _process_setup) and of the
sector lookup in src/stock_sector_lookup.py (STOCK_SECTORS, detect_sector).

Modelling conventions:
- Python floats are modelled as rationals.
- Python dicts with string keys are modelled as association lists in source
  order; a later binding of the same key overrides an earlier one, and
  iteration yields each key once, at its first-insertion position, with its
  final value (CPython dict-literal semantics).
- The collaborator modules that are imported by the orchestrator but whose
  source is not part of this repository snapshot (data fetcher, regime
  filter, eligibility validator, the two engines, probability scorer, risk
  governor, formatter) are modelled as an explicit environment of oracle
  functions; the orchestrator's own control flow is translated line by line.
- Mutations of the risk governor's portfolio state and invocations of the
  two scanners are recorded in an explicit event trace, in call order.
-/

namespace Trading

/-! ## Sector lookup module (src/stock_sector_lookup.py) -/

/-- The STOCK_SECTORS dict literal, as the association list of its entries in
source order.  Note the key INDUSINDBK is bound twice (BANKING under the
Banking block, TELECOM under the Telecom block); in Python the later binding
wins. -/
def STOCK_SECTORS : List (String × String) := [
  ("HDFCBANK", "BANKING"), ("ICICIBANK", "BANKING"), ("SBIN", "BANKING"),
  ("AXISBANK", "BANKING"), ("KOTAKBANK", "BANKING"), ("INDUSINDBK", "BANKING"),
  ("BANDHANBNK", "BANKING"), ("FEDERALBNK", "BANKING"), ("IDFCFIRSTB", "BANKING"),
  ("TCS", "IT"), ("INFY", "IT"), ("WIPRO", "IT"), ("HCLTECH", "IT"),
  ("TECHM", "IT"), ("LTIM", "IT"), ("COFORGE", "IT"), ("MPHASIS", "IT"),
  ("TATAMOTORS", "AUTO"), ("M&M", "AUTO"), ("MARUTI", "AUTO"), ("BAJAJ-AUTO", "AUTO"),
  ("EICHERMOT", "AUTO"), ("HEROMOTOCORP", "AUTO"), ("ASHOKLEY", "AUTO"),
  ("SUNPHARMA", "PHARMA"), ("DRREDDY", "PHARMA"), ("CIPLA", "PHARMA"),
  ("DIVISLAB", "PHARMA"), ("BIOCON", "PHARMA"), ("AUROPHARMA", "PHARMA"),
  ("HINDUNILVR", "FMCG"), ("ITC", "FMCG"), ("NESTLEIND", "FMCG"),
  ("BRITANNIA", "FMCG"), ("DABUR", "FMCG"), ("MARICO", "FMCG"),
  ("RELIANCE", "ENERGY"), ("ONGC", "ENERGY"), ("BPCL", "ENERGY"),
  ("IOC", "ENERGY"), ("GAIL", "ENERGY"), ("COALINDIA", "ENERGY"),
  ("TATASTEEL", "METALS"), ("HINDALCO", "METALS"), ("JSWSTEEL", "METALS"),
  ("SAIL", "METALS"), ("VEDL", "METALS"), ("NATIONALUM", "METALS"),
  ("LT", "INFRA"), ("ADANIPORTS", "INFRA"), ("ADANIENT", "INFRA"),
  ("BAJFINANCE", "FINANCE"), ("BAJAJFINSV", "FINANCE"), ("CHOLAFIN", "FINANCE"),
  ("SBILIFE", "FINANCE"), ("HDFCLIFE", "FINANCE"), ("ICICIPRULI", "FINANCE"),
  ("DLF", "REALTY"), ("GODREJPROP", "REALTY"), ("OBEROIRLTY", "REALTY"),
  ("ULTRACEMCO", "CEMENT"), ("GRASIM", "CEMENT"), ("SHREECEM", "CEMENT"),
  ("BHARTIARTL", "TELECOM"), ("INDUSINDBK", "TELECOM"),
  ("ASIANPAINT", "PAINTS"), ("BERGER", "PAINTS")]

/-- Python dict lookup over an association list of literal entries: the
LAST binding of a key wins (later entries of a dict literal override earlier
ones). -/
def py_dict_get : List (String × String) → String → Option String
  | [], _ => none
  | p :: rest, k =>
    match py_dict_get rest k with
    | some v => some v
    | none => if p.1 = k then some p.2 else none

/-- Auxiliary recursion (fuel-bounded, fuel at least the list length) for
Python dict iteration order: each key once, at its first-insertion position,
carrying its final value. -/
def py_dict_items_aux (orig : List (String × String)) :
    Nat → List (String × String) → List (String × String)
  | 0, _ => []
  | _ + 1, [] => []
  | n + 1, p :: rest =>
    (p.1, (py_dict_get orig p.1).getD p.2) ::
      py_dict_items_aux orig n (rest.filter (fun q => decide (q.1 ≠ p.1)))

/-- Python dict iteration (dict.items order) of an association list of
literal entries. -/
def py_dict_items (l : List (String × String)) : List (String × String) :=
  py_dict_items_aux l l.length l

/-- Auxiliary recursion (fuel-bounded) for Python str.replace: replace every
non-overlapping occurrence of the pattern, scanning left to right. -/
def replace_all_aux (pat rep : List Char) : Nat → List Char → List Char
  | 0, l => l
  | _ + 1, [] => []
  | n + 1, c :: cs =>
    if pat.isPrefixOf (c :: cs) then rep ++ replace_all_aux pat rep n ((c :: cs).drop pat.length)
    else c :: replace_all_aux pat rep n cs

/-- Python str.replace(pat, rep) on character lists (pat nonempty in all
uses here). -/
def replace_all (pat rep l : List Char) : List Char :=
  replace_all_aux pat rep l.length l

/-- Python substring containment, the expression a in b for strings, on
character lists. -/
def list_infix_of (xs : List Char) : List Char → Bool
  | [] => xs.isEmpty
  | y :: ys => xs.isPrefixOf (y :: ys) || list_infix_of xs ys

/-- The cleaned symbol of detect_sector:
symbol.upper().replace(".NS", "").replace(".BO", "").  Uppercasing is done
character by character, matching Python str.upper on the ASCII symbols used
here. -/
def clean_symbol (symbol : String) : String :=
  String.mk (replace_all ".BO".toList []
    (replace_all ".NS".toList [] (symbol.toList.map Char.toUpper)))

/-- The body of detect_sector, generic in the sector dict: direct dict
lookup of the cleaned symbol, then fuzzy substring matching over the dict
items in iteration order, else UNKNOWN. -/
def py_detect (l : List (String × String)) (c : String) : String :=
  match py_dict_get l c with
  | some sector => sector
  | none =>
    match (py_dict_items l).find?
        (fun p => list_infix_of c.toList p.1.toList || list_infix_of p.1.toList c.toList) with
    | some p => p.2
    | none => "UNKNOWN"

/-- detect_sector from src/stock_sector_lookup.py. -/
def detect_sector (symbol : String) : String :=
  py_detect STOCK_SECTORS (clean_symbol symbol)

/-! ### Lemmas about the dict model -/

theorem py_dict_get_mem_values {l : List (String × String)} {k v : String}
    (h : py_dict_get l k = some v) : v ∈ l.map Prod.snd := by
  induction l with
  | nil => simp [py_dict_get] at h
  | cons p rest ih =>
    simp only [py_dict_get] at h
    split at h
    · rename_i w heq
      injection h with h
      subst h
      exact List.mem_cons_of_mem _ (ih heq)
    · split at h
      · injection h with h
        subst h
        simp
      · exact Option.noConfusion h

theorem mem_keys_py_dict_get {l : List (String × String)} {k : String}
    (h : k ∈ l.map Prod.fst) : ∃ v, py_dict_get l k = some v := by
  induction l with
  | nil => simp at h
  | cons p rest ih =>
    simp only [py_dict_get]
    cases hr : py_dict_get rest k with
    | some w => exact ⟨w, rfl⟩
    | none =>
      simp only [List.map_cons, List.mem_cons] at h
      rcases h with h | h
      · exact ⟨p.2, by simp [h]⟩
      · rcases ih h with ⟨v, hv⟩
        rw [hr] at hv
        exact Option.noConfusion hv

theorem py_dict_items_aux_snd_mem {orig : List (String × String)} :
    ∀ (n : Nat) (rest : List (String × String)), (∀ q ∈ rest, q ∈ orig) →
    ∀ p ∈ py_dict_items_aux orig n rest, p.2 ∈ orig.map Prod.snd := by
  intro n
  induction n with
  | zero => intro rest _ p hp; simp [py_dict_items_aux] at hp
  | succ n ih =>
    intro rest hsub p hp
    cases rest with
    | nil => simp [py_dict_items_aux] at hp
    | cons q rest' =>
      simp only [py_dict_items_aux, List.mem_cons] at hp
      rcases hp with hp | hp
      · subst hp
        have hq : q ∈ orig := hsub q (List.mem_cons_self q rest')
        have hk : q.1 ∈ orig.map Prod.fst := List.mem_map_of_mem Prod.fst hq
        rcases mem_keys_py_dict_get hk with ⟨v, hv⟩
        simpa [hv] using py_dict_get_mem_values hv
      · exact ih _ (fun r hr => hsub r (List.mem_cons_of_mem q (List.mem_of_mem_filter hr))) p hp

theorem py_dict_items_snd_mem {l : List (String × String)} {p : String × String}
    (hp : p ∈ py_dict_items l) : p.2 ∈ l.map Prod.snd :=
  py_dict_items_aux_snd_mem l.length l (fun _ h => h) p hp

theorem py_detect_mem_or_unknown (l : List (String × String)) (c : String) :
    py_detect l c = "UNKNOWN" ∨ py_detect l c ∈ l.map Prod.snd := by
  rw [py_detect]
  cases hd : py_dict_get l c with
  | some v => exact Or.inr (py_dict_get_mem_values hd)
  | none =>
    cases heq : (py_dict_items l).find?
        (fun p => list_infix_of c.toList p.1.toList || list_infix_of p.1.toList c.toList) with
    | some p => exact Or.inr (py_dict_items_snd_mem (List.mem_of_find?_eq_some heq))
    | none => exact Or.inl rfl

theorem py_detect_direct_hit {l : List (String × String)} {c v : String}
    (h : py_dict_get l c = some v) : py_detect l c = v := by
  rw [py_detect, h]

theorem detect_sector_mem_or_unknown (s : String) :
    detect_sector s = "UNKNOWN" ∨ detect_sector s ∈ STOCK_SECTORS.map Prod.snd :=
  py_detect_mem_or_unknown STOCK_SECTORS (clean_symbol s)

theorem detect_sector_of_direct_hit {s v : String}
    (h : py_dict_get STOCK_SECTORS (clean_symbol s) = some v) : detect_sector s = v := by
  rw [detect_sector]
  exact py_detect_direct_hit h

/-! ## Data model of the orchestrator (src/ai_trading_system.py) -/

/-- Stock market data (a pandas DataFrame in the source).  The orchestrator
itself reads only the last Close value; everything else is consumed by the
collaborator oracles. -/
structure StockData where
  close_last : ℚ
deriving DecidableEq

/-- Index market data; opaque to the orchestrator. -/
structure IndexData where
deriving DecidableEq

/-- RegimeResult from market_regime_filter: direction is the .value string
of the direction enum. -/
structure RegimeResult where
  direction : String
  score : ℚ
  eligible_for_long : Bool
  eligible_for_short : Bool
  index_aligned : Bool
deriving DecidableEq

/-- EligibilityResult from stock_eligibility_validator. -/
structure EligibilityResult where
  is_eligible : Bool
  warnings : List String
deriving DecidableEq

/-- A setup emitted by Engine 1 (micro profit): carries a target ladder
keyed by reward-multiple label; the orchestrator reads targets["1.0R"]. -/
structure MicroSetup where
  direction : String
  entry_price : ℚ
  stop_loss : ℚ
  targets : String → ℚ
  setup_type : String

/-- A setup emitted by Engine 2 (big runner): carries a partial-exit target
and a trailing-stop method tag. -/
structure BigRunnerSetup where
  direction : String
  entry_price : ℚ
  stop_loss : ℚ
  partial_exit_target : ℚ
  setup_type : String
  trailing_method : String
deriving DecidableEq

/-- ProbabilityComponents from ai_probability_scorer: five sub-scores and
the combined final probability. -/
structure ProbabilityComponents where
  market_score : ℚ
  trend_score : ℚ
  momentum_score : ℚ
  volume_score : ℚ
  risk_score : ℚ
  final_probability : ℚ
deriving DecidableEq

/-- RiskCheckResult from portfolio_risk_governor. -/
structure RiskCheckResult where
  allowed : Bool
  reason : Option String
deriving DecidableEq

/-- The probability_components dict stored inside a TradeSignal. -/
structure ComponentsMap where
  market : ℚ
  trend : ℚ
  momentum : ℚ
  volume : ℚ
  risk : ℚ
deriving DecidableEq

/-- TradeSignal as constructed in _process_setup. -/
structure TradeSignal where
  engine_type : String
  trade_type : String
  setup_type : String
  ai_probability : ℚ
  entry : ℚ
  stoploss : ℚ
  target_1 : ℚ
  runner_mode : String
  trailing_method : String
  risk_per_trade : ℚ
  expected_hold : String
  sector : String
  index_alignment : String
  trend_strength : String
  symbol : String
  current_price : ℚ
  probability_components : ComponentsMap
deriving DecidableEq

/-- The per-setup result dict returned by _process_setup for an approved
candidate. -/
structure SignalRecord where
  signal : TradeSignal
  text : String
  json : String
  probability_details : ProbabilityComponents
  position_size : ℤ
  risk_pct : ℚ
deriving DecidableEq

/-- TwoEngineConfig with its source defaults. -/
structure TwoEngineConfig where
  capital : ℚ := 1000000
  enable_engine1 : Bool := true
  enable_engine2 : Bool := true
  db_path : String := "trades.db"
  min_turnover_cr : ℚ := 20
  auto_log_trades : Bool := true
deriving DecidableEq

/-- The collaborator modules imported by the orchestrator (data fetcher,
regime filter, eligibility validator, both engines, probability scorer,
risk governor admission and sizing, signal formatter).  Their sources are
outside this repository snapshot, so they enter the embedding as an
environment of oracle functions; each field mirrors one collaborator
method's signature as called by the orchestrator. -/
structure Env where
  fetch_stock_data : String → Option StockData
  fetch_index_data : String → Option IndexData
  get_current_vix : ℚ
  analyze_regime : StockData → Option IndexData → RegimeResult
  validate_stock : String → StockData → String → Option IndexData → Option String → EligibilityResult
  engine1_scan_for_setups : StockData → List MicroSetup
  engine2_scan_for_setups : StockData → List BigRunnerSetup
  calculate_probability : StockData → Option IndexData → ℚ → ℚ → ℚ → ℚ → String → ProbabilityComponents
  can_open_new_trade : String → String → String → ℚ → String → RiskCheckResult
  calculate_position_size : ℚ → ℚ → ℚ → ℤ × ℚ
  format_signal : TradeSignal → String
  format_json : TradeSignal → String

/-- Modelled from the spec: AIProbabilityScorer.meets_threshold is in the
absent ai_probability_scorer module.  Section 4.5 fixes it as an
engine-specific constant threshold — Micro requires probability at least
70, BigRunner at least 65 — which also matches the thresholds the
orchestrator prints at the rejection branch of _process_setup. -/
def meets_threshold (probability : ℚ) (engine_type : String) : Bool :=
  decide (probability ≥ (if engine_type = "MICRO" then (70 : ℚ) else 65))

/-- Modelled from the spec: StockEligibilityValidator.validate_stock is in
the absent stock_eligibility_validator module.  Section 4.2 requires it to
evaluate a list of named checks and accumulate the messages of ALL failing
checks into the warnings sequence (no stop at the first failure); the stock
is eligible exactly when every check passes.  A check is a (message,
passed) pair. -/
def run_checks (checks : List (String × Bool)) : EligibilityResult :=
  { is_eligible := checks.all (fun c => c.2),
    warnings := (checks.filter (fun c => c.2 = false)).map (fun c => c.1) }

/-- Mutations of the risk governor's portfolio state and scanner
invocations, recorded by the embedding in call order. -/
inductive Event where
  | updateVix (reading : ℚ)
  | scanEngine1
  | scanEngine2
  | canOpenNewTrade (symbol sector direction : String) (probability : ℚ) (engine_type : String)
  | calculatePositionSize (probability entry_price stop_loss : ℚ)
deriving DecidableEq

/-- An event that touches PortfolioState (governor operations; scanner
invocations do not). -/
def Event.touches_portfolio_state : Event → Bool
  | .updateVix _ => true
  | .canOpenNewTrade _ _ _ _ _ => true
  | .calculatePositionSize _ _ _ => true
  | _ => false

/-- An admission-gate or position-sizing operation. -/
def Event.is_admission_or_sizing : Event → Bool
  | .canOpenNewTrade _ _ _ _ _ => true
  | .calculatePositionSize _ _ _ => true
  | _ => false

/-- The tagged union of the two engines' setups, as consumed by
_process_setup. -/
inductive Setup where
  | micro (s : MicroSetup)
  | bigRunner (s : BigRunnerSetup)

/-- The per-engine field extraction at the top of _process_setup (the
branch on engine_type; at both call sites the engine_type tag agrees with
the setup variant). -/
structure SetupView where
  direction : String
  entry : ℚ
  stop : ℚ
  target : ℚ
  setup_name : String
  expected_hold : String
  runner_mode : String
  trailing_method : String

/-- Field extraction of _process_setup: MICRO reads targets["1.0R"],
BIG_RUNNER reads partial_exit_target and the trailing method tag. -/
def extract_setup : Setup → SetupView
  | .micro s =>
    { direction := s.direction, entry := s.entry_price, stop := s.stop_loss,
      target := s.targets "1.0R", setup_name := s.setup_type,
      expected_hold := "Swing", runner_mode := "DISABLED", trailing_method := "N/A" }
  | .bigRunner s =>
    { direction := s.direction, entry := s.entry_price, stop := s.stop_loss,
      target := s.partial_exit_target, setup_name := s.setup_type,
      expected_hold := "Position", runner_mode := "ENABLED", trailing_method := s.trailing_method }

/-- The trend-strength banding inside _process_setup: at least 75 Strong,
at least 50 Medium, else Weak. -/
def trend_strength_of (trend_score : ℚ) : String :=
  if trend_score ≥ 75 then "Strong"
  else if trend_score ≥ 50 then "Medium"
  else "Weak"

/-- _process_setup: probability scoring, threshold gate, risk admission
gate, position sizing, signal assembly.  Returns the approved signal record
(or none) together with the trace of portfolio-state operations it
performed. -/
def process_setup (env : Env) (setup : Setup) (engine_type symbol sector : String)
    (stock_data : StockData) (index_data : Option IndexData)
    (regime_result : RegimeResult) : Option SignalRecord × List Event :=
  let v := extract_setup setup
  let probability_result :=
    env.calculate_probability stock_data index_data v.entry v.stop v.target (1/2) v.setup_name
  let prob := probability_result.final_probability
  if meets_threshold prob engine_type = false then (none, [])
  else
    let risk_check := env.can_open_new_trade symbol sector v.direction prob engine_type
    if risk_check.allowed = false then
      (none, [Event.canOpenNewTrade symbol sector v.direction prob engine_type])
    else
      let sz := env.calculate_position_size prob v.entry v.stop
      let signal : TradeSignal :=
        { engine_type := if engine_type = "MICRO" then "MICRO-PROFIT" else "BIG-RUNNER",
          trade_type := v.direction,
          setup_type := v.setup_name,
          ai_probability := prob,
          entry := v.entry,
          stoploss := v.stop,
          target_1 := v.target,
          runner_mode := v.runner_mode,
          trailing_method := v.trailing_method,
          risk_per_trade := sz.2,
          expected_hold := v.expected_hold,
          sector := sector,
          index_alignment := if regime_result.index_aligned then "YES" else "NO",
          trend_strength := trend_strength_of probability_result.trend_score,
          symbol := symbol,
          current_price := stock_data.close_last,
          probability_components :=
            { market := probability_result.market_score,
              trend := probability_result.trend_score,
              momentum := probability_result.momentum_score,
              volume := probability_result.volume_score,
              risk := probability_result.risk_score } }
      (some { signal := signal,
              text := env.format_signal signal,
              json := env.format_json signal,
              probability_details := probability_result,
              position_size := sz.1,
              risk_pct := sz.2 },
       [Event.canOpenNewTrade symbol sector v.direction prob engine_type,
        Event.calculatePositionSize prob v.entry v.stop])

/-- The four shapes of the dict returned by analyze_stock.  fetchError is
the dict with only error and symbol keys (no status key); the other three
carry a status field, recovered by AnalyzeResult.status below. -/
inductive AnalyzeResult where
  | fetchError (error symbol : String)
  | noTrade (symbol reason regime : String)
  | notEligible (symbol : String) (reason : List String) (regime : String)
  | success (symbol regime : String) (regime_score : ℚ) (eligible : Bool)
      (signal_records : List SignalRecord) (vix : ℚ)
deriving DecidableEq

/-- result.get("status"): the fetch-error dict has no status key. -/
def AnalyzeResult.status : AnalyzeResult → Option String
  | .fetchError _ _ => none
  | .noTrade _ _ _ => some "NO_TRADE"
  | .notEligible _ _ _ => some "NOT_ELIGIBLE"
  | .success _ _ _ _ _ _ => some "SUCCESS"

/-- The signals the analysis generated: the signals list of a SUCCESS
result, empty for every other shape. -/
def AnalyzeResult.signals : AnalyzeResult → List SignalRecord
  | .success _ _ _ _ recs _ => recs
  | _ => []

/-- The reason field of a NOT_ELIGIBLE result (the surfaced warnings). -/
def AnalyzeResult.reasons : AnalyzeResult → List String
  | .notEligible _ rs _ => rs
  | _ => []

/-- Python "sector or UNKNOWN": None and the empty string are falsy. -/
def py_or_unknown : Option String → String
  | none => "UNKNOWN"
  | some s => if s = "" then "UNKNOWN" else s

/-- The Engine 1 scan-and-process loop of analyze_stock (step 4, first
block): runs only when engine 1 is enabled AND the regime is
eligible_for_long, and then processes every scanned setup. -/
def engine1_results (env : Env) (config : TwoEngineConfig) (symbol : String)
    (sector : Option String) (stock_data : StockData) (index_data : Option IndexData)
    (regime_result : RegimeResult) : List (Option SignalRecord × List Event) :=
  if config.enable_engine1 && regime_result.eligible_for_long then
    (env.engine1_scan_for_setups stock_data).map (fun s =>
      process_setup env (.micro s) "MICRO" symbol (py_or_unknown sector)
        stock_data index_data regime_result)
  else []

/-- The Engine 2 scan-and-process loop of analyze_stock (step 4, second
block).  Note the source guards this block with eligible_for_long as well,
not eligible_for_short. -/
def engine2_results (env : Env) (config : TwoEngineConfig) (symbol : String)
    (sector : Option String) (stock_data : StockData) (index_data : Option IndexData)
    (regime_result : RegimeResult) : List (Option SignalRecord × List Event) :=
  if config.enable_engine2 && regime_result.eligible_for_long then
    (env.engine2_scan_for_setups stock_data).map (fun s =>
      process_setup env (.bigRunner s) "BIG_RUNNER" symbol (py_or_unknown sector)
        stock_data index_data regime_result)
  else []

/-- analyze_stock: fetch, regime gate, eligibility gate, the two scanner
loops, result assembly.  Returns the result dict together with the trace of
scanner invocations and portfolio-state operations in call order. -/
def analyze_stock (env : Env) (config : TwoEngineConfig) (symbol : String)
    (sector : Option String) (index : String) : AnalyzeResult × List Event :=
  let stock_data? := env.fetch_stock_data symbol
  let index_data := env.fetch_index_data index
  let vix := env.get_current_vix
  match stock_data? with
  | none => (.fetchError "Failed to fetch stock data" symbol, [])
  | some stock_data =>
    let regime_result := env.analyze_regime stock_data index_data
    if (regime_result.eligible_for_long || regime_result.eligible_for_short) = false then
      (.noTrade symbol "Market regime not favorable" regime_result.direction,
       [Event.updateVix vix])
    else
      let eligibility_result := env.validate_stock symbol stock_data "breakout" index_data sector
      if eligibility_result.is_eligible = false then
        (.notEligible symbol eligibility_result.warnings regime_result.direction,
         [Event.updateVix vix])
      else
        let e1 := engine1_results env config symbol sector stock_data index_data regime_result
        let e2 := engine2_results env config symbol sector stock_data index_data regime_result
        let all_signals := e1.filterMap Prod.fst ++ e2.filterMap Prod.fst
        let events :=
          [Event.updateVix vix]
          ++ (if config.enable_engine1 && regime_result.eligible_for_long then
                [Event.scanEngine1] else [])
          ++ (e1.map Prod.snd).flatten
          ++ (if config.enable_engine2 && regime_result.eligible_for_long then
                [Event.scanEngine2] else [])
          ++ (e2.map Prod.snd).flatten
        (.success symbol regime_result.direction regime_result.score
           eligibility_result.is_eligible all_signals vix, events)

/-! ## Concrete fixtures used to evaluate the pipeline on closed inputs -/

def test_stock : StockData := ⟨100⟩

def test_regime (long_e short_e : Bool) : RegimeResult :=
  { direction := "UP", score := 80, eligible_for_long := long_e,
    eligible_for_short := short_e, index_aligned := true }

def test_micro_setup : MicroSetup :=
  { direction := "LONG", entry_price := 100, stop_loss := 95,
    targets := fun _ => 105, setup_type := "PULLBACK_SUPPORT" }

def test_big_setup : BigRunnerSetup :=
  { direction := "LONG", entry_price := 100, stop_loss := 92,
    partial_exit_target := 120, setup_type := "TREND_CONTINUATION",
    trailing_method := "ATR_TRAIL" }

def test_components (p : ℚ) : ProbabilityComponents :=
  { market_score := 80, trend_score := 80, momentum_score := 80,
    volume_score := 80, risk_score := 80, final_probability := p }

/-- A fully healthy collaborator environment: data present, one setup per
engine, every candidate scored with final probability prob, risk always
admitted. -/
def test_env (long_e short_e : Bool) (prob : ℚ) : Env :=
  { fetch_stock_data := fun _ => some test_stock,
    fetch_index_data := fun _ => none,
    get_current_vix := 15,
    analyze_regime := fun _ _ => test_regime long_e short_e,
    validate_stock := fun _ _ _ _ _ => { is_eligible := true, warnings := [] },
    engine1_scan_for_setups := fun _ => [test_micro_setup],
    engine2_scan_for_setups := fun _ => [test_big_setup],
    calculate_probability := fun _ _ _ _ _ _ _ => test_components prob,
    can_open_new_trade := fun _ _ _ _ _ => { allowed := true, reason := none },
    calculate_position_size := fun _ _ _ => (100, 1),
    format_signal := fun _ => "",
    format_json := fun _ => "" }

/-- The healthy environment with the stock-data fetch failing. -/
def env_no_data : Env :=
  { test_env true true 80 with fetch_stock_data := fun _ => none }

/-- The healthy environment with two eligibility checks failing. -/
def env_not_eligible : Env :=
  { test_env true true 80 with
    validate_stock := fun _ _ _ _ _ =>
      run_checks [("Turnover below floor", false), ("Spread too wide", false), ("ATR ok", true)] }

/-! ## Structural lemmas about the pipeline -/

theorem meets_threshold_micro (p : ℚ) : meets_threshold p "MICRO" = decide (70 ≤ p) := by
  simp [meets_threshold, ge_iff_le]

theorem meets_threshold_big (p : ℚ) : meets_threshold p "BIG_RUNNER" = decide (65 ≤ p) := by
  have h : ¬ ("BIG_RUNNER" = "MICRO") := by decide
  simp [meets_threshold, h, ge_iff_le]

/-- Every portfolio-state operation performed by _process_setup is an
admission check or a sizing call (never an update of the VIX reading). -/
theorem process_setup_events_admission_or_sizing (env : Env) (setup : Setup)
    (engine_type symbol sector : String) (stock_data : StockData)
    (index_data : Option IndexData) (regime_result : RegimeResult) :
    ∀ e ∈ (process_setup env setup engine_type symbol sector stock_data index_data
      regime_result).2, e.is_admission_or_sizing = true := by
  intro e he
  simp only [process_setup] at he
  split at he
  · simp at he
  · split at he
    · simp only [List.mem_singleton] at he
      subst he
      rfl
    · simp only [List.mem_cons, List.mem_singleton, List.not_mem_nil, or_false] at he
      rcases he with he | he <;> subst he <;> rfl

/-- _process_setup returns no signal and performs no portfolio-state
operation exactly when the probability threshold gate rejects the
candidate: the threshold predicate is the only rejection mechanism at the
probability stage. -/
theorem process_setup_probability_rejection (env : Env) (setup : Setup)
    (engine_type symbol sector : String) (stock_data : StockData)
    (index_data : Option IndexData) (regime_result : RegimeResult) :
    ((process_setup env setup engine_type symbol sector stock_data index_data
        regime_result).1 = none ∧
     (process_setup env setup engine_type symbol sector stock_data index_data
        regime_result).2 = []) ↔
    meets_threshold (env.calculate_probability stock_data index_data
      (extract_setup setup).entry (extract_setup setup).stop (extract_setup setup).target
      (1/2) (extract_setup setup).setup_name).final_probability engine_type = false := by
  simp only [process_setup]
  split
  · rename_i hm
    simpa using hm
  · rename_i hm
    simp only [Bool.not_eq_false] at hm
    split
    · constructor
      · rintro ⟨_, h2⟩
        exact absurd h2 (List.cons_ne_nil _ _)
      · intro hfalse
        rw [hm] at hfalse
        exact Bool.noConfusion hfalse
    · constructor
      · rintro ⟨h1, _⟩
        exact Option.noConfusion h1
      · intro hfalse
        rw [hm] at hfalse
        exact Bool.noConfusion hfalse

/-- Every event of the Engine 1 loop comes from a _process_setup call on a
scanned micro setup. -/
theorem engine1_results_events_admission_or_sizing (env : Env) (config : TwoEngineConfig)
    (symbol : String) (sector : Option String) (stock_data : StockData)
    (index_data : Option IndexData) (regime_result : RegimeResult) :
    ∀ pr ∈ engine1_results env config symbol sector stock_data index_data regime_result,
    ∀ e ∈ pr.2, e.is_admission_or_sizing = true := by
  intro pr hpr e he
  rw [engine1_results] at hpr
  split at hpr
  · rcases List.mem_map.mp hpr with ⟨s, _, hs⟩
    subst hs
    exact process_setup_events_admission_or_sizing _ _ _ _ _ _ _ _ e he
  · simp at hpr

/-- Every event of the Engine 2 loop comes from a _process_setup call on a
scanned big-runner setup. -/
theorem engine2_results_events_admission_or_sizing (env : Env) (config : TwoEngineConfig)
    (symbol : String) (sector : Option String) (stock_data : StockData)
    (index_data : Option IndexData) (regime_result : RegimeResult) :
    ∀ pr ∈ engine2_results env config symbol sector stock_data index_data regime_result,
    ∀ e ∈ pr.2, e.is_admission_or_sizing = true := by
  intro pr hpr e he
  rw [engine2_results] at hpr
  split at hpr
  · rcases List.mem_map.mp hpr with ⟨s, _, hs⟩
    subst hs
    exact process_setup_events_admission_or_sizing _ _ _ _ _ _ _ _ e he
  · simp at hpr

/-- Branch lemma: missing stock data. -/
theorem analyze_stock_no_data (env : Env) (config : TwoEngineConfig) (symbol : String)
    (sector : Option String) (index : String)
    (h : env.fetch_stock_data symbol = none) :
    analyze_stock env config symbol sector index =
      (.fetchError "Failed to fetch stock data" symbol, []) := by
  simp only [analyze_stock, h]

/-- Branch lemma: regime gate fails. -/
theorem analyze_stock_no_trade (env : Env) (config : TwoEngineConfig) (symbol : String)
    (sector : Option String) (index : String) (stock_data : StockData)
    (hfetch : env.fetch_stock_data symbol = some stock_data)
    (hgate : ((env.analyze_regime stock_data (env.fetch_index_data index)).eligible_for_long ||
      (env.analyze_regime stock_data (env.fetch_index_data index)).eligible_for_short) = false) :
    analyze_stock env config symbol sector index =
      (.noTrade symbol "Market regime not favorable"
        (env.analyze_regime stock_data (env.fetch_index_data index)).direction,
       [Event.updateVix env.get_current_vix]) := by
  simp only [analyze_stock, hfetch, hgate, if_pos]

/-- Branch lemma: eligibility gate fails. -/
theorem analyze_stock_not_eligible (env : Env) (config : TwoEngineConfig) (symbol : String)
    (sector : Option String) (index : String) (stock_data : StockData)
    (hfetch : env.fetch_stock_data symbol = some stock_data)
    (hgate : ((env.analyze_regime stock_data (env.fetch_index_data index)).eligible_for_long ||
      (env.analyze_regime stock_data (env.fetch_index_data index)).eligible_for_short) = true)
    (helig : (env.validate_stock symbol stock_data "breakout" (env.fetch_index_data index)
      sector).is_eligible = false) :
    analyze_stock env config symbol sector index =
      (.notEligible symbol
        (env.validate_stock symbol stock_data "breakout" (env.fetch_index_data index)
          sector).warnings
        (env.analyze_regime stock_data (env.fetch_index_data index)).direction,
       [Event.updateVix env.get_current_vix]) := by
  simp only [analyze_stock, hfetch, hgate, helig, Bool.true_eq_false, if_false, if_pos]

/-- Branch lemma: both gates pass; the result is SUCCESS with the per-setup
processing of both engine loops, and the trace is the VIX update, then the
scans with their per-setup governor operations. -/
theorem analyze_stock_success (env : Env) (config : TwoEngineConfig) (symbol : String)
    (sector : Option String) (index : String) (stock_data : StockData)
    (hfetch : env.fetch_stock_data symbol = some stock_data)
    (hgate : ((env.analyze_regime stock_data (env.fetch_index_data index)).eligible_for_long ||
      (env.analyze_regime stock_data (env.fetch_index_data index)).eligible_for_short) = true)
    (helig : (env.validate_stock symbol stock_data "breakout" (env.fetch_index_data index)
      sector).is_eligible = true) :
    analyze_stock env config symbol sector index =
      (.success symbol
        (env.analyze_regime stock_data (env.fetch_index_data index)).direction
        (env.analyze_regime stock_data (env.fetch_index_data index)).score
        (env.validate_stock symbol stock_data "breakout" (env.fetch_index_data index)
          sector).is_eligible
        ((engine1_results env config symbol sector stock_data (env.fetch_index_data index)
            (env.analyze_regime stock_data (env.fetch_index_data index))).filterMap Prod.fst ++
         (engine2_results env config symbol sector stock_data (env.fetch_index_data index)
            (env.analyze_regime stock_data (env.fetch_index_data index))).filterMap Prod.fst)
        env.get_current_vix,
       [Event.updateVix env.get_current_vix]
       ++ (if config.enable_engine1 &&
             (env.analyze_regime stock_data (env.fetch_index_data index)).eligible_for_long then
             [Event.scanEngine1] else [])
       ++ ((engine1_results env config symbol sector stock_data (env.fetch_index_data index)
             (env.analyze_regime stock_data (env.fetch_index_data index))).map Prod.snd).flatten
       ++ (if config.enable_engine2 &&
             (env.analyze_regime stock_data (env.fetch_index_data index)).eligible_for_long then
             [Event.scanEngine2] else [])
       ++ ((engine2_results env config symbol sector stock_data (env.fetch_index_data index)
             (env.analyze_regime stock_data (env.fetch_index_data index))).map Prod.snd).flatten) := by
  simp only [analyze_stock, hfetch, hgate, helig, Bool.true_eq_false, if_false]

/-- Engine 1 loop is empty when the regime is not long-eligible. -/
theorem engine1_results_long_false (env : Env) (config : TwoEngineConfig) (symbol : String)
    (sector : Option String) (stock_data : StockData) (index_data : Option IndexData)
    (regime_result : RegimeResult) (hlong : regime_result.eligible_for_long = false) :
    engine1_results env config symbol sector stock_data index_data regime_result = [] := by
  rw [engine1_results]
  simp [hlong]

/-- Engine 2 loop is empty when the regime is not long-eligible (the source
guards it with eligible_for_long, not eligible_for_short). -/
theorem engine2_results_long_false (env : Env) (config : TwoEngineConfig) (symbol : String)
    (sector : Option String) (stock_data : StockData) (index_data : Option IndexData)
    (regime_result : RegimeResult) (hlong : regime_result.eligible_for_long = false) :
    engine2_results env config symbol sector stock_data index_data regime_result = [] := by
  rw [engine2_results]
  simp [hlong]

/-! ## The claims -/

/-- C1: for every symbol whose stock data is available, if the regime
result has eligible_for_long = false and eligible_for_short = false, then
analyze_stock returns a terminal NO_TRADE result carrying the regime
direction, the analysis generates zero signals, and neither setup scanner
is invoked. -/
theorem claim_C1_regime_ineligible_no_trade (env : Env) (config : TwoEngineConfig)
    (symbol : String) (sector : Option String) (index : String) (stock_data : StockData)
    (hfetch : env.fetch_stock_data symbol = some stock_data)
    (hl : (env.analyze_regime stock_data (env.fetch_index_data index)).eligible_for_long = false)
    (hs : (env.analyze_regime stock_data (env.fetch_index_data index)).eligible_for_short = false) :
    (analyze_stock env config symbol sector index).1 =
      .noTrade symbol "Market regime not favorable"
        (env.analyze_regime stock_data (env.fetch_index_data index)).direction
    ∧ (analyze_stock env config symbol sector index).1.status = some "NO_TRADE"
    ∧ (analyze_stock env config symbol sector index).1.signals = []
    ∧ Event.scanEngine1 ∉ (analyze_stock env config symbol sector index).2
    ∧ Event.scanEngine2 ∉ (analyze_stock env config symbol sector index).2 := by
  have hgate : ((env.analyze_regime stock_data (env.fetch_index_data index)).eligible_for_long ||
      (env.analyze_regime stock_data (env.fetch_index_data index)).eligible_for_short) = false := by
    rw [hl, hs]
    rfl
  rw [analyze_stock_no_trade env config symbol sector index stock_data hfetch hgate]
  refine ⟨rfl, rfl, rfl, ?_, ?_⟩ <;> simp

/-- C1 witness: concrete both-directions-ineligible regime. -/
theorem claim_C1_witness :
    (analyze_stock (test_env false false 80) {} "TEST" none "NIFTY").1.status = some "NO_TRADE"
    ∧ (analyze_stock (test_env false false 80) {} "TEST" none "NIFTY").1.signals = []
    ∧ Event.scanEngine1 ∉ (analyze_stock (test_env false false 80) {} "TEST" none "NIFTY").2 :=
  ⟨(claim_C1_regime_ineligible_no_trade (test_env false false 80) {} "TEST" none "NIFTY"
      test_stock rfl rfl rfl).2.1,
   (claim_C1_regime_ineligible_no_trade (test_env false false 80) {} "TEST" none "NIFTY"
      test_stock rfl rfl rfl).2.2.1,
   (claim_C1_regime_ineligible_no_trade (test_env false false 80) {} "TEST" none "NIFTY"
      test_stock rfl rfl rfl).2.2.2.1⟩

/-- C2 counterexample: a symbol that passes the regime gate (short-eligible
only) and the eligibility gate, with both engines enabled, on which NEITHER
scanner is invoked — both scanner loops are guarded by eligible_for_long,
so the claim that both scanners run regardless of which direction flag is
set is false on the code. -/
theorem claim_C2_counterexample :
    (test_env false true 80).analyze_regime test_stock none
      = test_regime false true
    ∧ (test_regime false true).eligible_for_short = true
    ∧ ((test_env false true 80).validate_stock "TEST" test_stock "breakout" none
        none).is_eligible = true
    ∧ ({} : TwoEngineConfig).enable_engine1 = true
    ∧ ({} : TwoEngineConfig).enable_engine2 = true
    ∧ (analyze_stock (test_env false true 80) {} "TEST" none "NIFTY").1.status = some "SUCCESS"
    ∧ Event.scanEngine1 ∉ (analyze_stock (test_env false true 80) {} "TEST" none "NIFTY").2
    ∧ Event.scanEngine2 ∉ (analyze_stock (test_env false true 80) {} "TEST" none "NIFTY").2 := by
  decide

/-- C2 amended: for every symbol that passes both gates with both engines
enabled, both scanners are invoked IF AND ONLY IF the regime is
eligible_for_long; when only eligible_for_short is set, neither scanner
runs (both loops are guarded by eligible_for_long in the source). -/
theorem claim_C2_both_scanners_iff_long (env : Env) (config : TwoEngineConfig)
    (symbol : String) (sector : Option String) (index : String) (stock_data : StockData)
    (hfetch : env.fetch_stock_data symbol = some stock_data)
    (hgate : ((env.analyze_regime stock_data (env.fetch_index_data index)).eligible_for_long ||
      (env.analyze_regime stock_data (env.fetch_index_data index)).eligible_for_short) = true)
    (helig : (env.validate_stock symbol stock_data "breakout" (env.fetch_index_data index)
      sector).is_eligible = true)
    (he1 : config.enable_engine1 = true) (he2 : config.enable_engine2 = true) :
    (Event.scanEngine1 ∈ (analyze_stock env config symbol sector index).2 ∧
     Event.scanEngine2 ∈ (analyze_stock env config symbol sector index).2) ↔
    (env.analyze_regime stock_data (env.fetch_index_data index)).eligible_for_long = true := by
  rw [analyze_stock_success env config symbol sector index stock_data hfetch hgate helig]
  cases hlong : (env.analyze_regime stock_data (env.fetch_index_data index)).eligible_for_long with
  | false =>
    rw [engine1_results_long_false env config symbol sector stock_data
        (env.fetch_index_data index) _ hlong,
      engine2_results_long_false env config symbol sector stock_data
        (env.fetch_index_data index) _ hlong]
    simp [hlong]
  | true =>
    simp [hlong, he1, he2]

/-- C2 witness: with a long-eligible regime both scanners are invoked. -/
theorem claim_C2_witness :
    Event.scanEngine1 ∈ (analyze_stock (test_env true true 80) {} "TEST" none "NIFTY").2 ∧
    Event.scanEngine2 ∈ (analyze_stock (test_env true true 80) {} "TEST" none "NIFTY").2 :=
  (claim_C2_both_scanners_iff_long (test_env true true 80) {} "TEST" none "NIFTY"
    test_stock rfl rfl rfl rfl rfl).mpr rfl

/-- C3 counterexample: when the data source returns no stock data, the
result dict is {error, symbol} and carries NO status key at all, so it is
not the terminal shape {status: NO_DATA}. -/
theorem claim_C3_counterexample :
    env_no_data.fetch_stock_data "TEST" = none
    ∧ (analyze_stock env_no_data {} "TEST" none "NIFTY").1.status ≠ some "NO_DATA"
    ∧ (analyze_stock env_no_data {} "TEST" none "NIFTY").1.status = none := by
  decide

/-- C3 amended: for every symbol for which the data source returns no stock
data, analyze_stock returns the terminal dict
{error: "Failed to fetch stock data", symbol} — which has no status field —
and no further pipeline stage runs (no scanner invocation and no
portfolio-state operation). -/
theorem claim_C3_no_data_error_dict (env : Env) (config : TwoEngineConfig)
    (symbol : String) (sector : Option String) (index : String)
    (h : env.fetch_stock_data symbol = none) :
    analyze_stock env config symbol sector index =
      (.fetchError "Failed to fetch stock data" symbol, [])
    ∧ (analyze_stock env config symbol sector index).1.status = none := by
  have heq := analyze_stock_no_data env config symbol sector index h
  refine ⟨heq, ?_⟩
  rw [heq]
  rfl

/-- C3 witness: concrete failing fetch. -/
theorem claim_C3_witness :
    analyze_stock env_no_data {} "TEST" none "NIFTY" =
      (.fetchError "Failed to fetch stock data" "TEST", [])
    ∧ (analyze_stock env_no_data {} "TEST" none "NIFTY").1.status = none :=
  claim_C3_no_data_error_dict env_no_data {} "TEST" none "NIFTY" rfl

/-- C4: the threshold predicate holds for MICRO exactly at probability at
least 70 and for BIG_RUNNER exactly at probability at least 65, with the
four boundary values of the spec, and it is the only mechanism by which a
candidate is rejected at the probability stage of _process_setup (the
per-setup processing returns no signal while performing no governor
operation exactly when the predicate is false). -/
theorem claim_C4_meets_threshold :
    (∀ p : ℚ, (meets_threshold p "MICRO" = true ↔ 70 ≤ p)
      ∧ (meets_threshold p "BIG_RUNNER" = true ↔ 65 ≤ p))
    ∧ meets_threshold (69.9 : ℚ) "MICRO" = false
    ∧ meets_threshold (70.0 : ℚ) "MICRO" = true
    ∧ meets_threshold (64.9 : ℚ) "BIG_RUNNER" = false
    ∧ meets_threshold (65.0 : ℚ) "BIG_RUNNER" = true
    ∧ (∀ (env : Env) (setup : Setup) (engine_type symbol sector : String)
        (stock_data : StockData) (index_data : Option IndexData)
        (regime_result : RegimeResult),
        ((process_setup env setup engine_type symbol sector stock_data index_data
            regime_result).1 = none ∧
         (process_setup env setup engine_type symbol sector stock_data index_data
            regime_result).2 = []) ↔
        meets_threshold (env.calculate_probability stock_data index_data
          (extract_setup setup).entry (extract_setup setup).stop
          (extract_setup setup).target (1/2) (extract_setup setup).setup_name).final_probability
          engine_type = false) := by
  refine ⟨?_, ?_, ?_, ?_, ?_, process_setup_probability_rejection⟩
  · intro p
    rw [meets_threshold_micro, meets_threshold_big]
    constructor <;> simp
  · rw [meets_threshold_micro]
    norm_num
  · rw [meets_threshold_micro]
    norm_num
  · rw [meets_threshold_big]
    norm_num
  · rw [meets_threshold_big]
    norm_num

/-- Membership in the conditional singleton scanner-marker lists. -/
theorem mem_if_singleton {c : Prop} [Decidable c] {e x : Event}
    (h : e ∈ (if c then [x] else [])) : e = x := by
  split at h
  · simpa using h
  · simp at h

/-- C5: a candidate whose probability fails the engine threshold is dropped
by itself — the per-setup processing returns no signal — while the symbol
analysis still returns SUCCESS and its signals are exactly the per-setup
results of all scanned candidates of both engines (the other candidates are
unaffected). -/
theorem claim_C5_threshold_miss_drops_candidate_only (env : Env) (config : TwoEngineConfig)
    (symbol : String) (sector : Option String) (index : String) (stock_data : StockData)
    (hfetch : env.fetch_stock_data symbol = some stock_data)
    (hgate : ((env.analyze_regime stock_data (env.fetch_index_data index)).eligible_for_long ||
      (env.analyze_regime stock_data (env.fetch_index_data index)).eligible_for_short) = true)
    (helig : (env.validate_stock symbol stock_data "breakout" (env.fetch_index_data index)
      sector).is_eligible = true) :
    (analyze_stock env config symbol sector index).1.status = some "SUCCESS"
    ∧ (analyze_stock env config symbol sector index).1.signals =
        (engine1_results env config symbol sector stock_data (env.fetch_index_data index)
          (env.analyze_regime stock_data (env.fetch_index_data index))).filterMap Prod.fst ++
        (engine2_results env config symbol sector stock_data (env.fetch_index_data index)
          (env.analyze_regime stock_data (env.fetch_index_data index))).filterMap Prod.fst
    ∧ (∀ (setup : Setup) (engine_type sec : String),
        meets_threshold (env.calculate_probability stock_data (env.fetch_index_data index)
          (extract_setup setup).entry (extract_setup setup).stop (extract_setup setup).target
          (1/2) (extract_setup setup).setup_name).final_probability engine_type = false →
        (process_setup env setup engine_type symbol sec stock_data (env.fetch_index_data index)
          (env.analyze_regime stock_data (env.fetch_index_data index))).1 = none) := by
  rw [analyze_stock_success env config symbol sector index stock_data hfetch hgate helig]
  refine ⟨rfl, rfl, ?_⟩
  intro setup engine_type sec hmiss
  exact ((process_setup_probability_rejection env setup engine_type symbol sec stock_data
    (env.fetch_index_data index)
    (env.analyze_regime stock_data (env.fetch_index_data index))).mpr hmiss).1

/-- C5 witness: probability 68 misses the MICRO threshold, the candidate is
dropped, the symbol result is still SUCCESS. -/
theorem claim_C5_witness :
    (analyze_stock (test_env true true 68) {} "TEST" none "NIFTY").1.status = some "SUCCESS"
    ∧ (process_setup (test_env true true 68) (.micro test_micro_setup) "MICRO" "TEST" "UNKNOWN"
        test_stock none (test_regime true true)).1 = none :=
  ⟨(claim_C5_threshold_miss_drops_candidate_only (test_env true true 68) {} "TEST" none "NIFTY"
      test_stock rfl rfl rfl).1,
   (claim_C5_threshold_miss_drops_candidate_only (test_env true true 68) {} "TEST" none "NIFTY"
      test_stock rfl rfl rfl).2.2 (.micro test_micro_setup) "MICRO" "UNKNOWN" (by decide)⟩

/-- C6: when the eligibility check fails, the pipeline returns the
NOT_ELIGIBLE terminal shape whose reason field carries the validator's full
warnings sequence — in particular the message of EVERY failing check, not
just the first — together with the regime direction, and no scanner is
invoked.  The validator itself is modelled from the spec (run_checks). -/
theorem claim_C6_not_eligible_surfaces_all_warnings (env : Env) (config : TwoEngineConfig)
    (symbol : String) (sector : Option String) (index : String) (stock_data : StockData)
    (checks : List (String × Bool))
    (hfetch : env.fetch_stock_data symbol = some stock_data)
    (hgate : ((env.analyze_regime stock_data (env.fetch_index_data index)).eligible_for_long ||
      (env.analyze_regime stock_data (env.fetch_index_data index)).eligible_for_short) = true)
    (hval : env.validate_stock symbol stock_data "breakout" (env.fetch_index_data index) sector
      = run_checks checks)
    (hfail : (run_checks checks).is_eligible = false) :
    (analyze_stock env config symbol sector index).1 =
      .notEligible symbol (run_checks checks).warnings
        (env.analyze_regime stock_data (env.fetch_index_data index)).direction
    ∧ (analyze_stock env config symbol sector index).1.status = some "NOT_ELIGIBLE"
    ∧ (∀ c ∈ checks, c.2 = false →
        c.1 ∈ (analyze_stock env config symbol sector index).1.reasons)
    ∧ Event.scanEngine1 ∉ (analyze_stock env config symbol sector index).2
    ∧ Event.scanEngine2 ∉ (analyze_stock env config symbol sector index).2 := by
  have helig : (env.validate_stock symbol stock_data "breakout" (env.fetch_index_data index)
      sector).is_eligible = false := by
    rw [hval]
    exact hfail
  rw [analyze_stock_not_eligible env config symbol sector index stock_data hfetch hgate helig,
    hval]
  refine ⟨rfl, rfl, ?_, by simp, by simp⟩
  intro c hc hcf
  show c.1 ∈ (run_checks checks).warnings
  rw [run_checks]
  exact List.mem_map.mpr ⟨c, List.mem_filter.mpr ⟨hc, by simp [hcf]⟩, rfl⟩

/-- C6 witness: two failing checks, both surfaced. -/
theorem claim_C6_witness :
    (analyze_stock env_not_eligible {} "TEST" none "NIFTY").1 =
      .notEligible "TEST" ["Turnover below floor", "Spread too wide"] "UP"
    ∧ "Spread too wide" ∈ (analyze_stock env_not_eligible {} "TEST" none "NIFTY").1.reasons :=
  ⟨(claim_C6_not_eligible_surfaces_all_warnings env_not_eligible {} "TEST" none "NIFTY"
      test_stock [("Turnover below floor", false), ("Spread too wide", false), ("ATR ok", true)]
      rfl rfl rfl (by decide)).1,
   (claim_C6_not_eligible_surfaces_all_warnings env_not_eligible {} "TEST" none "NIFTY"
      test_stock [("Turnover below floor", false), ("Spread too wide", false), ("ATR ok", true)]
      rfl rfl rfl (by decide)).2.2.1 ("Spread too wide", false) (by decide) rfl⟩

/-- C7: the trend-strength classification stored in an assembled trade
signal is exactly the fixed banding of the trend sub-score — Strong iff at
least 75, Medium iff in [50, 75), Weak iff below 50 — with the boundary
values 75, 74, 50, 49, and the signal assembled by _process_setup always
stores that banding of the scorer's trend score. -/
theorem claim_C7_trend_strength_bands :
    (∀ t : ℚ, (trend_strength_of t = "Strong" ↔ 75 ≤ t)
      ∧ (trend_strength_of t = "Medium" ↔ 50 ≤ t ∧ t < 75)
      ∧ (trend_strength_of t = "Weak" ↔ t < 50))
    ∧ trend_strength_of 75 = "Strong"
    ∧ trend_strength_of 74 = "Medium"
    ∧ trend_strength_of 50 = "Medium"
    ∧ trend_strength_of 49 = "Weak"
    ∧ (∀ (env : Env) (setup : Setup) (engine_type symbol sector : String)
        (stock_data : StockData) (index_data : Option IndexData)
        (regime_result : RegimeResult),
        (process_setup env setup engine_type symbol sector stock_data index_data
            regime_result).1.map (fun r => r.signal.trend_strength) =
        (process_setup env setup engine_type symbol sector stock_data index_data
            regime_result).1.map (fun _ =>
          trend_strength_of (env.calculate_probability stock_data index_data
            (extract_setup setup).entry (extract_setup setup).stop (extract_setup setup).target
            (1/2) (extract_setup setup).setup_name).trend_score)) := by
  refine ⟨?_, by decide, by decide, by decide, by decide, ?_⟩
  · intro t
    unfold trend_strength_of
    split_ifs with h1 h2
    · exact ⟨⟨fun _ => h1, fun _ => rfl⟩,
        ⟨fun h => absurd h (by decide), fun h => absurd h1 (not_le.mpr h.2)⟩,
        ⟨fun h => absurd h (by decide),
         fun h => absurd h1 (not_le.mpr (lt_of_lt_of_le h (by norm_num)))⟩⟩
    · exact ⟨⟨fun h => absurd h (by decide), fun h => absurd h h1⟩,
        ⟨fun _ => ⟨h2, not_le.mp h1⟩, fun _ => rfl⟩,
        ⟨fun h => absurd h (by decide), fun h => absurd h2 (not_le.mpr h)⟩⟩
    · exact ⟨⟨fun h => absurd h (by decide), fun h => absurd h h1⟩,
        ⟨fun h => absurd h (by decide), fun h => absurd h.1 h2⟩,
        ⟨fun _ => not_le.mp h2, fun _ => rfl⟩⟩
  · intro env setup engine_type symbol sector stock_data index_data regime_result
    simp only [process_setup]
    split
    · rfl
    · split <;> rfl

/-- C8: the assembly round-trip — re-deriving the trend strength from the
trend component stored in the signal's probability_components, and the
index alignment from the regime's index_aligned flag, reproduces exactly
the trend_strength and index_alignment stored in the assembled signal. -/
theorem claim_C8_assembly_round_trip (env : Env) (setup : Setup)
    (engine_type symbol sector : String) (stock_data : StockData)
    (index_data : Option IndexData) (regime_result : RegimeResult) (rec : SignalRecord)
    (h : (process_setup env setup engine_type symbol sector stock_data index_data
      regime_result).1 = some rec) :
    trend_strength_of rec.signal.probability_components.trend = rec.signal.trend_strength
    ∧ rec.signal.index_alignment = (if regime_result.index_aligned then "YES" else "NO") := by
  simp only [process_setup] at h
  split at h
  · exact Option.noConfusion h
  · split at h
    · exact Option.noConfusion h
    · injection h with h
      subst h
      exact ⟨rfl, rfl⟩

/-- A throwaway record used only to read off the approved result of a
concrete _process_setup run. -/
def dummy_record : SignalRecord :=
  { signal :=
      { engine_type := "", trade_type := "", setup_type := "", ai_probability := 0,
        entry := 0, stoploss := 0, target_1 := 0, runner_mode := "", trailing_method := "",
        risk_per_trade := 0, expected_hold := "", sector := "", index_alignment := "",
        trend_strength := "", symbol := "", current_price := 0,
        probability_components := ⟨0, 0, 0, 0, 0⟩ },
    text := "", json := "",
    probability_details := ⟨0, 0, 0, 0, 0, 0⟩,
    position_size := 0, risk_pct := 0 }

/-- C8 witness: a concrete approved candidate (probability 72). -/
theorem claim_C8_witness :
    trend_strength_of (((process_setup (test_env true true 72) (.micro test_micro_setup)
        "MICRO" "TEST" "ENERGY" test_stock none (test_regime true true)).1.getD
        dummy_record).signal.probability_components.trend) =
      ((process_setup (test_env true true 72) (.micro test_micro_setup)
        "MICRO" "TEST" "ENERGY" test_stock none (test_regime true true)).1.getD
        dummy_record).signal.trend_strength
    ∧ ((process_setup (test_env true true 72) (.micro test_micro_setup)
        "MICRO" "TEST" "ENERGY" test_stock none (test_regime true true)).1.getD
        dummy_record).signal.index_alignment =
      (if (test_regime true true).index_aligned then "YES" else "NO") :=
  claim_C8_assembly_round_trip (test_env true true 72) (.micro test_micro_setup)
    "MICRO" "TEST" "ENERGY" test_stock none (test_regime true true)
    ((process_setup (test_env true true 72) (.micro test_micro_setup)
      "MICRO" "TEST" "ENERGY" test_stock none (test_regime true true)).1.getD dummy_record)
    (by decide)

/-- C9: every analyze_stock call that obtains stock data performs the VIX
update as its very first portfolio-state operation (before any admission
check or sizing), and every later portfolio-state operation in the trace is
an admission check or a sizing call — the VIX update is the only other
mutation the pipeline performs. -/
theorem claim_C9_update_vix_first (env : Env) (config : TwoEngineConfig) (symbol : String)
    (sector : Option String) (index : String) (stock_data : StockData)
    (hfetch : env.fetch_stock_data symbol = some stock_data) :
    (analyze_stock env config symbol sector index).2.head? =
      some (Event.updateVix env.get_current_vix)
    ∧ (∀ e ∈ (analyze_stock env config symbol sector index).2.tail,
        e.touches_portfolio_state = true → e.is_admission_or_sizing = true) := by
  cases hgate : ((env.analyze_regime stock_data (env.fetch_index_data index)).eligible_for_long ||
      (env.analyze_regime stock_data (env.fetch_index_data index)).eligible_for_short) with
  | false =>
    rw [analyze_stock_no_trade env config symbol sector index stock_data hfetch hgate]
    exact ⟨rfl, by intro e he; simp at he⟩
  | true =>
    cases helig : (env.validate_stock symbol stock_data "breakout" (env.fetch_index_data index)
        sector).is_eligible with
    | false =>
      rw [analyze_stock_not_eligible env config symbol sector index stock_data hfetch hgate helig]
      exact ⟨rfl, by intro e he; simp at he⟩
    | true =>
      rw [analyze_stock_success env config symbol sector index stock_data hfetch hgate helig]
      refine ⟨rfl, ?_⟩
      intro e he htouch
      simp only [List.cons_append, List.nil_append, List.tail_cons, List.mem_append] at he
      rcases he with ((he | he) | he) | he
      · rw [mem_if_singleton he] at htouch
        exact absurd htouch (by decide)
      · rcases List.mem_flatten.mp he with ⟨l, hl, hel⟩
        rcases List.mem_map.mp hl with ⟨pr, hpr, hpre⟩
        subst hpre
        exact engine1_results_events_admission_or_sizing env config symbol sector stock_data
          (env.fetch_index_data index)
          (env.analyze_regime stock_data (env.fetch_index_data index)) pr hpr e hel
      · rw [mem_if_singleton he] at htouch
        exact absurd htouch (by decide)
      · rcases List.mem_flatten.mp he with ⟨l, hl, hel⟩
        rcases List.mem_map.mp hl with ⟨pr, hpr, hpre⟩
        subst hpre
        exact engine2_results_events_admission_or_sizing env config symbol sector stock_data
          (env.fetch_index_data index)
          (env.analyze_regime stock_data (env.fetch_index_data index)) pr hpr e hel

/-- C9 witness: concrete healthy run; the first trace event is the VIX
update with the fetched reading. -/
theorem claim_C9_witness :
    (analyze_stock (test_env true true 80) {} "TEST" none "NIFTY").2.head? =
      some (Event.updateVix 15) :=
  (claim_C9_update_vix_first (test_env true true 80) {} "TEST" none "NIFTY" test_stock rfl).1

/-- C10: detect_sector is total and deterministic — on every input string
it returns either a sector label of STOCK_SECTORS or UNKNOWN — a direct
dict hit of the cleaned symbol returns that key's dict value, and for the
duplicated key INDUSINDBK the later Telecom binding overrides the earlier
Banking one, so detect_sector "INDUSINDBK" is TELECOM and not BANKING. -/
theorem claim_C10_detect_sector :
    (∀ s : String, detect_sector s = "UNKNOWN" ∨ detect_sector s ∈ STOCK_SECTORS.map Prod.snd)
    ∧ (∀ s v : String, py_dict_get STOCK_SECTORS (clean_symbol s) = some v →
        detect_sector s = v)
    ∧ detect_sector "INDUSINDBK" = "TELECOM"
    ∧ detect_sector "INDUSINDBK" ≠ "BANKING" := by
  refine ⟨detect_sector_mem_or_unknown, ?_, by decide, by decide⟩
  intro s v h
  exact detect_sector_of_direct_hit h

/-- C10 witness: the .NS suffix is stripped before the lookup, and the
duplicate-key override is observed. -/
theorem claim_C10_witness : detect_sector "INDUSINDBK.NS" = "TELECOM" :=
  claim_C10_detect_sector.2.1 "INDUSINDBK.NS" "TELECOM" (by decide)

end Trading
